import Mathlib

/-!
Verification of the user-mention formatting subsystem and the mention
migration routine of the correlation-center Telegram bot.

The formatter `buildUserMention` is embedded from `src/unnamed/part_000`
(its flat-argument twin from `src/index.js`, line 355, is `buildUserMentionIndex`),
and the migration routine `migrateUserMentions` from `src/index.js`, lines 270-335.
The escaping and link-wrapping primitives of the external
`@flla/telegram-format` package are not part of the sources of this repository;
they are modelled from the specification and from the table-driven test suite of the repository itself (`src/buildUserMention.test.js`), which pins their
behaviour exactly.

JavaScript conventions used by the embedding: optional / possibly-`undefined`
values are `Option`; `a ?? b` is `jsCoalesce`; string truthiness is
`strTruthy`; `lodash` trimming is `jsTrim` (the ECMAScript white-space set).
-/

namespace CorrelationCenter

/-- A Telegram user id as it may arrive in JavaScript: either a number or a
digit string (`src/unnamed/part_000`, line 9: `number|string`). -/
inductive JSId where
  | num (n : Int)
  | str (s : String)
deriving DecidableEq

/-- JavaScript template-literal interpolation of an id value (its string form). -/
def JSId.text : JSId → String
  | .num n => toString n
  | .str s => s

/-- Interpolation of a possibly-`undefined` id, as in ``tg://user?id=${id}``:
JavaScript renders `undefined` as the literal text `undefined`. -/
def optIdText : Option JSId → String
  | some i => i.text
  | none => "undefined"

/-- The ECMAScript white-space and line-terminator set used by `_.trim`
(and `String.prototype.trim`). -/
def jsWS (c : Char) : Bool :=
  c.val = 0x9 || c.val = 0xA || c.val = 0xB || c.val = 0xC || c.val = 0xD ||
  c.val = 0x20 || c.val = 0xA0 || c.val = 0x1680 ||
  (0x2000 ≤ c.val && c.val ≤ 0x200A) ||
  c.val = 0x2028 || c.val = 0x2029 || c.val = 0x202F || c.val = 0x205F ||
  c.val = 0x3000 || c.val = 0xFEFF

/-- `_.trim`: drop leading and trailing JavaScript white space. -/
def jsTrim (s : String) : String :=
  String.mk (((s.toList.dropWhile jsWS).reverse.dropWhile jsWS).reverse)

/-- JavaScript truthiness of a possibly-`undefined` string:
`undefined`, `null` and the empty string are falsy. -/
def strTruthy : Option String → Bool
  | some s => !(s == "")
  | none => false

/-- The JavaScript nullish-coalescing operator `a ?? b` on optional values
(`null` and `undefined` are both `none`). -/
def jsCoalesce {α : Type} (p q : Option α) : Option α :=
  match p with
  | some v => some v
  | none => q

/-- `a || b || d` on two optional strings with a string default, as in
`chat.username || chat.first_name || fallback` (src/index.js, line 322). -/
def jsOrStr (a b : Option String) (d : String) : String :=
  if strTruthy a then a.getD ("") else if strTruthy b then b.getD ("") else d

/-! ## Modelled primitives of `@flla/telegram-format` -/

/-- The apostrophe character U+0027. -/
def aposChar : Char := Char.ofNat 39

/-- The backtick character U+0060. -/
def backtickChar : Char := Char.ofNat 96

/-- The opening curly brace U+007B. -/
def openBraceChar : Char := Char.ofNat 123

/-- The closing curly brace U+007D. -/
def closeBraceChar : Char := Char.ofNat 125

/-- Lower-case hexadecimal digits of a natural number, zero-padded to at
least two digits, as used in numeric character references. -/
def hexAtLeast2 (n : Nat) : String :=
  let s := String.mk (Nat.toDigits 16 n)
  if s.length < 2 then "0" ++ s else s

/-- Modelled from the spec: the per-character escaping of `html.escape` from
the external `@flla/telegram-format` package (not in src/). The spec and the
repository tests pin it: the five HTML-significant characters become their
named entities, and code points outside the Basic Multilingual Plane become
lower-case hexadecimal numeric character references; all other characters
are emitted literally. -/
def htmlEscapeChar (c : Char) : String :=
  if c = '&' then "&amp;"
  else if c = '<' then "&lt;"
  else if c = '>' then "&gt;"
  else if c = '"' then "&quot;"
  else if c = aposChar then "&apos;"
  else if 0x10000 ≤ c.val then "&#x" ++ hexAtLeast2 c.toNat ++ ";"
  else String.singleton c

/-- Character-by-character escaping of a character list. -/
def htmlEscapeList : List Char → String
  | [] => ""
  | c :: cs => htmlEscapeChar c ++ htmlEscapeList cs

/-- Modelled from the spec: `html.escape` of `@flla/telegram-format`
(not in src/), applied once to each character of the label. -/
def htmlEscape (s : String) : String := htmlEscapeList s.toList

/-- Modelled from the spec: `html.url` of `@flla/telegram-format`
(not in src/): wraps label and link as an anchor tag, escaping neither. -/
def htmlUrl (label link : String) : String :=
  "<a href=\"" ++ link ++ "\">" ++ label ++ "</a>"

/-- The label transformation of legacy-Markdown `url`: every `]` is removed. -/
def removeCloseBracket (s : String) : String :=
  String.mk (s.toList.filter (fun c => !(c = ']')))

/-- Modelled from the spec: `markdown.url` (legacy Markdown) of
`@flla/telegram-format` (not in src/). The concrete scenario of the spec and the
repository test (`src/buildUserMention.test.js`, lines 97-100) pin that each
`]` in the label is removed before wrapping as `[LABEL](LINK)`; no other
escaping is applied. -/
def mdUrl (label link : String) : String :=
  "[" ++ removeCloseBracket label ++ "](" ++ link ++ ")"

/-- Modelled from the spec: the MarkdownV2 reserved characters of
`markdownv2.escape` of `@flla/telegram-format` (not in src/):
underscore, asterisk, brackets, parentheses, tilde, backtick, greater-than,
hash, plus, minus, equals, pipe, braces, dot, exclamation mark, and
backslash itself. -/
def mdv2Reserved : List Char :=
  ['_', '*', '[', ']', '(', ')', '~', backtickChar, '>', '#', '+', '-', '=',
   '|', openBraceChar, closeBraceChar, '.', '!', '\\']

/-- Modelled from the spec: per-character escaping of `markdownv2.escape`:
each reserved character is prefixed with a single backslash; every other
character is emitted unchanged. -/
def mdv2EscapeChar (c : Char) : String :=
  if c ∈ mdv2Reserved then String.singleton '\\' ++ String.singleton c
  else String.singleton c

/-- Character-by-character MarkdownV2 escaping of a character list. -/
def mdv2EscapeList : List Char → String
  | [] => ""
  | c :: cs => mdv2EscapeChar c ++ mdv2EscapeList cs

/-- Modelled from the spec: `markdownv2.escape` of `@flla/telegram-format`
(not in src/), applied once to each character of the label. -/
def mdv2Escape (s : String) : String := mdv2EscapeList s.toList

/-- Modelled from the spec: `markdownv2.url` of `@flla/telegram-format`
(not in src/): wraps label and link as `[LABEL](LINK)`. -/
def mdv2Url (label link : String) : String :=
  "[" ++ label ++ "](" ++ link ++ ")"

/-! ## The formatter (`src/unnamed/part_000` and `src/index.js`, line 355) -/

/-- `_.isString(rawName) ? _.trim(rawName) : rawName`
(`src/unnamed/part_000`, line 36). -/
def trimName : Option String → Option String
  | some s => some (jsTrim s)
  | none => none

/-- `_.isString(name) ? !_.isEmpty(name) : Boolean(name)`
(`src/unnamed/part_000`, line 37). -/
def nameKept : Option String → Bool
  | some s => !(s == "")
  | none => false

/-- Display-name derivation when `username` is falsy
(`src/unnamed/part_000`, lines 34-38): trim each string name, keep the
non-empty survivors, join them with one space, fall back to `unknown`. -/
def displayNameNoUser (first_name last_name : Option String) : String :=
  let raw := [first_name, last_name]
  let trimmedAll := raw.map trimName
  let cleaned := trimmedAll.filter nameKept
  if cleaned.length ≠ 0 then
    String.intercalate (" ") (cleaned.map (fun o => o.getD ("")))
  else "unknown"

/-- Display-name derivation (`src/unnamed/part_000`, lines 30-39):
``@username`` when `username` is truthy, else the joined names. -/
def displayNameOf (username first_name last_name : Option String) : String :=
  if strTruthy username then "@" ++ username.getD ("")
  else displayNameNoUser first_name last_name

/-- Link derivation (`src/unnamed/part_000`, line 40):
``https://t.me/username`` when `username` is truthy, else ``tg://user?id=id``. -/
def mentionLink (username : Option String) (id : Option JSId) : String :=
  if strTruthy username then "https://t.me/" ++ username.getD ("")
  else "tg://user?id=" ++ optIdText id

/-- The dialect switch shared by both copies of `buildUserMention`
(`src/unnamed/part_000`, lines 30-55; `src/index.js`, lines 356-381). -/
def renderMention (id : Option JSId) (username first_name last_name : Option String)
    (parseMode : String) : String :=
  let displayName := displayNameOf username first_name last_name
  let link := mentionLink username id
  if parseMode = "Markdown" then mdUrl displayName link
  else if parseMode = "MarkdownV2" then mdv2Url (mdv2Escape displayName) link
  else if strTruthy username then htmlUrl ("@" ++ username.getD ("")) link
  else htmlUrl (htmlEscape displayName) link

/-- A Telegram user object with `id`, `username`, `first_name`, `last_name`
(`src/unnamed/part_000`, line 8), also the shape of a `getChat` result. -/
structure TgUser where
  id : Option JSId := none
  username : Option String := none
  first_name : Option String := none
  last_name : Option String := none
deriving DecidableEq

/-- The options object of `buildUserMention` in `src/unnamed/part_000`,
lines 16-23: an optional nested `user` plus inline overrides. -/
structure MentionArgs where
  user : Option TgUser := none
  id : Option JSId := none
  username : Option String := none
  first_name : Option String := none
  last_name : Option String := none
  parseMode : Option String := none
deriving DecidableEq

/-- `idParam ?? user?.id` (`src/unnamed/part_000`, line 25). -/
def resolveId (o : MentionArgs) : Option JSId :=
  jsCoalesce o.id (o.user.bind TgUser.id)

/-- `usernameParam ?? user?.username` (`src/unnamed/part_000`, line 26). -/
def resolveUsername (o : MentionArgs) : Option String :=
  jsCoalesce o.username (o.user.bind TgUser.username)

/-- `firstNameParam ?? user?.first_name` (`src/unnamed/part_000`, line 27). -/
def resolveFirst (o : MentionArgs) : Option String :=
  jsCoalesce o.first_name (o.user.bind TgUser.first_name)

/-- `lastNameParam ?? user?.last_name` (`src/unnamed/part_000`, line 28). -/
def resolveLast (o : MentionArgs) : Option String :=
  jsCoalesce o.last_name (o.user.bind TgUser.last_name)

/-- `buildUserMention` of `src/unnamed/part_000`: resolves the core fields
from the nested `user` object with inline overrides, then renders.
A missing `parseMode` defaults to `HTML` (line 22). -/
def buildUserMention (o : MentionArgs) : String :=
  renderMention (resolveId o) (resolveUsername o) (resolveFirst o) (resolveLast o)
    (o.parseMode.getD ("HTML"))

/-- The flat options object of `buildUserMention` in `src/index.js`, line 355. -/
structure MentionParams where
  id : Option JSId := none
  username : Option String := none
  first_name : Option String := none
  last_name : Option String := none
  parseMode : Option String := none
deriving DecidableEq

/-- `buildUserMention` of `src/index.js`, lines 355-382 (the flat-argument
twin, byte-identical in its body to `src/unnamed/part_000`, lines 30-55). -/
def buildUserMentionIndex (p : MentionParams) : String :=
  renderMention p.id p.username p.first_name p.last_name (p.parseMode.getD ("HTML"))

/-! ## The migration routine (`src/index.js`, lines 270-335) -/

/-- A stored need or resource item, with the fields `migrateUserMentions`
reads or writes: `description`, `channelMessageId`, `fileId`, `updatedAt`,
and the role fields `requestor` / `supplier`. -/
structure StoredItem where
  description : String := ""
  channelMessageId : Option Nat := none
  fileId : Option String := none
  updatedAt : Option String := none
  requestor : Option String := none
  supplier : Option String := none
deriving DecidableEq

/-- The stored data of one owner: ordered lists of needs and resources. -/
structure UserData where
  needs : List StoredItem := []
  resources : List StoredItem := []
deriving DecidableEq

/-- The identity-lookup collaborator `bot.telegram.getChat(userId)`
(`src/index.js`, line 282), keyed by owner id. -/
def GetChat : Type := String → Except String TgUser

/-- The message-editor collaborator: `editMessageCaption` /
`editMessageText` (`src/index.js`, lines 302-316), as a function of the
message id, the new content, and whether the item carries an image
(`item.fileId`, which selects the caption edit). -/
def EditMessage : Type := Nat → String → Bool → Except String Unit

/-- The mention built during migration (`src/index.js`, lines 287-293):
`buildUserMention` on the chat fields with HTML parse mode. -/
def chatMention (chat : TgUser) : String :=
  buildUserMentionIndex ⟨chat.id, chat.username, chat.first_name, chat.last_name, some ("HTML")⟩

/-- The new channel text composed during migration
(`src/index.js`, lines 294-299), by item kind. -/
def migrationContent (isNeed : Bool) (descr mention : String) : String :=
  if isNeed then descr ++ "\n\n<i>Need of " ++ mention ++ ".</i>"
  else descr ++ "\n\n<i>Resource provided by " ++ mention ++ ".</i>"

/-- The per-item body of `migrateUserMentions` (`src/index.js`, lines
278-327): skip items with no `channelMessageId`; on lookup failure skip;
otherwise build the mention, compose the new content, request the edit
(caption when `fileId` is present, text otherwise); on any edit failure the
item is left untouched and not counted; on success set `updatedAt` and
refresh the role field. Returns the (possibly updated) item and whether it
counted towards `anyUpdated`. -/
def migrateItem (gc : GetChat) (ed : EditMessage) (now userId : String)
    (isNeed : Bool) (item : StoredItem) : StoredItem × Bool :=
  match item.channelMessageId with
  | none => (item, false)
  | some msgId =>
    match gc userId with
    | .error _ => (item, false)
    | .ok chat =>
      let newContent := migrationContent isNeed item.description (chatMention chat)
      match ed msgId newContent item.fileId.isSome with
      | .error _ => (item, false)
      | .ok _ =>
        if isNeed then
          ({ item with
              updatedAt := some now
              requestor := some (jsOrStr chat.username chat.first_name ("unknown")) }, true)
        else
          ({ item with
              updatedAt := some now
              supplier := some (jsOrStr chat.username chat.first_name ("unknown")) }, true)

/-- The inner item loop (`src/index.js`, line 277): every item of the list
is processed; failures never stop the iteration. -/
def migrateItems (gc : GetChat) (ed : EditMessage) (now userId : String)
    (isNeed : Bool) (items : List StoredItem) : List StoredItem × Bool :=
  let rs := items.map (migrateItem gc ed now userId isNeed)
  (rs.map Prod.fst, rs.any Prod.snd)

/-- The per-owner loop over the two kinds (`src/index.js`, line 275):
needs first, then resources. -/
def migrateUser (gc : GetChat) (ed : EditMessage) (now userId : String)
    (u : UserData) : UserData × Bool :=
  let n := migrateItems gc ed now userId true u.needs
  let r := migrateItems gc ed now userId false u.resources
  (⟨n.1, r.1⟩, n.2 || r.2)

/-- `migrateUserMentions` (`src/index.js`, lines 270-335): iterate all
owners in stored order, all their items; return the updated store together
with the `anyUpdated` flag (which gates the single final `writeDB`).
The source function takes no other parameters and returns no value. -/
def migrateUserMentions (gc : GetChat) (ed : EditMessage) (now : String)
    (users : List (String × UserData)) : List (String × UserData) × Bool :=
  let rs := users.map (fun e => (e.1, migrateUser gc ed now e.1 e.2))
  (rs.map (fun e => (e.1, e.2.1)), rs.any (fun e => e.2.2))

/-! ## Helper lemmas -/

lemma jsCoalesce_none_right {α : Type} (p : Option α) : jsCoalesce p none = p := by
  cases p <;> rfl

lemma jsCoalesce_none_left {α : Type} (q : Option α) : jsCoalesce none q = q := rfl

lemma strTruthy_some_of_ne (u : String) (h : u ≠ "") : strTruthy (some u) = true := by
  simp [strTruthy, h]

lemma renderMention_congr_text (i j : JSId) (h : i.text = j.text)
    (un fn ln : Option String) (pm : String) :
    renderMention (some i) un fn ln pm = renderMention (some j) un fn ln pm := by
  simp only [renderMention, mentionLink, optIdText]
  rw [h]

/-! ## Claims -/

/-- C10: `buildUserMention` in `src/unnamed/part_000` accepts a nested `user`
object; for each of `id`, `username`, `first_name`, `last_name`, the value
used is the explicitly passed top-level parameter when it is neither `null`
nor `undefined`, and the corresponding field of `user` otherwise, so a call
passing only `user` and a call passing the same four resolved fields directly
produce identical output. -/
theorem c10_user_object_resolution :
    (∀ (u : TgUser) (i : Option JSId) (un fn ln pm : Option String),
      buildUserMention ⟨some u, i, un, fn, ln, pm⟩
        = buildUserMention ⟨none, jsCoalesce i u.id, jsCoalesce un u.username,
            jsCoalesce fn u.first_name, jsCoalesce ln u.last_name, pm⟩)
    ∧ (∀ (u : TgUser) (pm : Option String),
      buildUserMention ⟨some u, none, none, none, none, pm⟩
        = buildUserMention ⟨none, u.id, u.username, u.first_name, u.last_name, pm⟩)
    ∧ (∀ {α : Type} (v : α) (q : Option α), jsCoalesce (some v) q = some v)
    ∧ (∀ {α : Type} (q : Option α), jsCoalesce (none : Option α) q = q) := by
  refine ⟨?_, ?_, fun v q => rfl, fun q => rfl⟩
  · intro u i un fn ln pm
    simp only [buildUserMention, resolveId, resolveUsername, resolveFirst, resolveLast,
      Option.bind, jsCoalesce_none_right]
  · intro u pm
    cases u with
    | mk i un fn ln =>
      simp only [buildUserMention, resolveId, resolveUsername, resolveFirst, resolveLast,
        Option.bind, jsCoalesce_none_right, jsCoalesce_none_left]

/-- C7: calling `buildUserMention` with the dialect unspecified, or with any
dialect value other than `HTML`, `Markdown`, or `MarkdownV2` (e.g. `XML`),
returns exactly the same string as calling it with dialect `HTML`; the call
is a total function and never fails. -/
theorem c7_default_dialect :
    (∀ (user : Option TgUser) (i : Option JSId) (un fn ln : Option String),
       buildUserMention ⟨user, i, un, fn, ln, none⟩
         = buildUserMention ⟨user, i, un, fn, ln, some ("HTML")⟩)
    ∧ (∀ (user : Option TgUser) (i : Option JSId) (un fn ln : Option String) (pm : String),
       pm ≠ "Markdown" → pm ≠ "MarkdownV2" →
       buildUserMention ⟨user, i, un, fn, ln, some pm⟩
         = buildUserMention ⟨user, i, un, fn, ln, some ("HTML")⟩) := by
  constructor
  · intro user i un fn ln
    rfl
  · intro user i un fn ln pm h1 h2
    simp only [buildUserMention, renderMention, Option.getD_some]
    rw [if_neg h1, if_neg h2]
    rfl

/-- C7 witness: an unrecognized dialect value `XML` yields the HTML output. -/
theorem c7_default_dialect_witness :
    buildUserMention ⟨none, some (.num 12345), none, some ("Foo"), none, some ("XML")⟩
      = buildUserMention ⟨none, some (.num 12345), none, some ("Foo"), none, some ("HTML")⟩ :=
  c7_default_dialect.2 none (some (.num 12345)) none (some ("Foo")) none "XML"
    (by decide) (by decide)

/-- C6: for every identity with a non-empty username, `buildUserMention` in
HTML dialect emits the label `@username` verbatim and unescaped (no entity
substitution), wrapped as an anchor over `https://t.me/username`. -/
theorem c6_html_username_verbatim :
    ∀ (i : Option JSId) (fn ln : Option String) (u : String), u ≠ "" →
      buildUserMention ⟨none, i, some u, fn, ln, some ("HTML")⟩
        = htmlUrl ("@" ++ u) ("https://t.me/" ++ u) := by
  intro i fn ln u h
  have hu := strTruthy_some_of_ne u h
  simp only [buildUserMention, renderMention, resolveId, resolveUsername, resolveFirst,
    resolveLast, jsCoalesce, Option.bind, mentionLink, Option.getD]
  rw [if_neg (by decide : ¬ ("HTML" = "Markdown")),
    if_neg (by decide : ¬ ("HTML" = "MarkdownV2")), hu]
  rfl

/-- C6 witness: username `john_doe` in HTML mode, evaluated concretely. -/
theorem c6_html_username_verbatim_witness :
    buildUserMention ⟨none, some (.num 12345), some ("john_doe"), none, none, some ("HTML")⟩
      = "<a href=\"https://t.me/john_doe\">@john_doe</a>" := by
  rw [c6_html_username_verbatim (some (.num 12345)) none none "john_doe" (by decide)]
  decide

/-- C1: for every identity without a username, HTML rendering escapes the
display label character by character: each of the five HTML-significant
characters becomes its named entity exactly once, each code point outside
the Basic Multilingual Plane becomes a lower-case hexadecimal numeric
character reference, and every other character is emitted literally;
U+1F600 becomes `&#x1f600;`. -/
theorem c1_html_escaping :
    (∀ (i : Option JSId) (un fn ln : Option String), strTruthy un = false →
      buildUserMention ⟨none, i, un, fn, ln, some ("HTML")⟩
        = htmlUrl (htmlEscapeList (displayNameOf un fn ln).toList)
            ("tg://user?id=" ++ optIdText i))
    ∧ htmlEscapeChar '<' = "&lt;"
    ∧ htmlEscapeChar '>' = "&gt;"
    ∧ htmlEscapeChar '&' = "&amp;"
    ∧ htmlEscapeChar '"' = "&quot;"
    ∧ htmlEscapeChar aposChar = "&apos;"
    ∧ (∀ c : Char, 0x10000 ≤ c.val →
        htmlEscapeChar c = "&#x" ++ hexAtLeast2 c.toNat ++ ";")
    ∧ (∀ c : Char, ¬ (0x10000 ≤ c.val) → c ≠ '&' → c ≠ '<' → c ≠ '>' →
        c ≠ '"' → c ≠ aposChar → htmlEscapeChar c = String.singleton c)
    ∧ htmlEscapeChar (Char.ofNat 0x1F600) = "&#x1f600;" := by
  refine ⟨?_, rfl, rfl, rfl, rfl, rfl, ?_, ?_, by decide⟩
  · intro i un fn ln h
    simp only [buildUserMention, renderMention, resolveId, resolveUsername, resolveFirst,
      resolveLast, Option.bind, jsCoalesce_none_right, jsCoalesce_none_left,
      Option.getD_some, mentionLink, htmlEscape, h]
    rfl
  · intro c hc
    have h1 : c ≠ '&' := by intro h; rw [h] at hc; exact absurd hc (by decide)
    have h2 : c ≠ '<' := by intro h; rw [h] at hc; exact absurd hc (by decide)
    have h3 : c ≠ '>' := by intro h; rw [h] at hc; exact absurd hc (by decide)
    have h4 : c ≠ '"' := by intro h; rw [h] at hc; exact absurd hc (by decide)
    have h5 : c ≠ aposChar := by intro h; rw [h] at hc; exact absurd hc (by decide)
    simp only [htmlEscapeChar]
    rw [if_neg h1, if_neg h2, if_neg h3, if_neg h4, if_neg h5, if_pos hc]
  · intro c hc h1 h2 h3 h4 h5
    simp only [htmlEscapeChar]
    rw [if_neg h1, if_neg h2, if_neg h3, if_neg h4, if_neg h5, if_neg hc]

/-- C1 witness: the HTML-escaping equation at an identity with label `<&>`
and the astral-plane rule at U+1F600. -/
theorem c1_html_escaping_witness :
    buildUserMention ⟨none, some (.num 12345), none, some ("<&>"), none, some ("HTML")⟩
      = "<a href=\"tg://user?id=12345\">&lt;&amp;&gt;</a>"
    ∧ htmlEscapeChar (Char.ofNat 0x1F600)
      = "&#x" ++ hexAtLeast2 (Char.ofNat 0x1F600).toNat ++ ";" := by
  constructor
  · rw [c1_html_escaping.1 (some (.num 12345)) none (some ("<&>")) none (by decide)]
    decide
  · exact c1_html_escaping.2.2.2.2.2.2.1 (Char.ofNat 0x1F600) (by decide)

/-- C2: for every identity with a non-empty username, in every dialect, the
link is `https://t.me/<username>` verbatim; without a username it is
`tg://user?id=<id>`; every dialect branch wraps exactly that link; and a
numeric id and its digit-string form produce identical output. -/
theorem c2_link_derivation :
    (∀ (u : String) (i : Option JSId), u ≠ "" →
        mentionLink (some u) i = "https://t.me/" ++ u)
    ∧ (∀ i : JSId, mentionLink none (some i) = "tg://user?id=" ++ i.text)
    ∧ (∀ o : MentionArgs,
        buildUserMention o
          = mdUrl (displayNameOf (resolveUsername o) (resolveFirst o) (resolveLast o))
              (mentionLink (resolveUsername o) (resolveId o))
        ∨ buildUserMention o
          = mdv2Url (mdv2Escape (displayNameOf (resolveUsername o) (resolveFirst o) (resolveLast o)))
              (mentionLink (resolveUsername o) (resolveId o))
        ∨ buildUserMention o
          = htmlUrl ("@" ++ (resolveUsername o).getD (""))
              (mentionLink (resolveUsername o) (resolveId o))
        ∨ buildUserMention o
          = htmlUrl (htmlEscape (displayNameOf (resolveUsername o) (resolveFirst o) (resolveLast o)))
              (mentionLink (resolveUsername o) (resolveId o)))
    ∧ (∀ (n : Int) (user : Option TgUser) (un fn ln pm : Option String),
        buildUserMention ⟨user, some (.num n), un, fn, ln, pm⟩
          = buildUserMention ⟨user, some (.str (toString n)), un, fn, ln, pm⟩) := by
  refine ⟨?_, fun i => rfl, ?_, ?_⟩
  · intro u i h
    simp [mentionLink, strTruthy_some_of_ne u h]
  · intro o
    simp only [buildUserMention, renderMention]
    by_cases h1 : o.parseMode.getD ("HTML") = "Markdown"
    · rw [if_pos h1]; exact Or.inl rfl
    · rw [if_neg h1]
      by_cases h2 : o.parseMode.getD ("HTML") = "MarkdownV2"
      · rw [if_pos h2]; exact Or.inr (Or.inl rfl)
      · rw [if_neg h2]
        by_cases h3 : strTruthy (resolveUsername o) = true
        · rw [if_pos h3]; exact Or.inr (Or.inr (Or.inl rfl))
        · rw [if_neg h3]; exact Or.inr (Or.inr (Or.inr rfl))
  · intro n user un fn ln pm
    exact renderMention_congr_text (.num n) (.str (toString n)) rfl _ _ _ _

/-- C2 witness: link derivation for username `john_doe` and the
numeric-versus-digit-string id equation at 54321. -/
theorem c2_link_derivation_witness :
    mentionLink (some ("john_doe")) none = "https://t.me/" ++ "john_doe"
    ∧ buildUserMention ⟨none, some (.num 54321), none, some ("Foo"), none, some ("HTML")⟩
      = buildUserMention ⟨none, some (.str (toString (54321 : Int))), none, some ("Foo"), none, some ("HTML")⟩ :=
  ⟨c2_link_derivation.1 ("john_doe") none (by decide),
   c2_link_derivation.2.2.2 54321 none none (some ("Foo")) none (some ("HTML"))⟩

/-- The display-label derivation exactly as the specification words it:
take the name values that are present, trim each, discard those that are
empty after trimming, join the survivors first-then-last with one space,
and fall back to the literal `unknown` when nothing survives. Stated for
comparison with the implementation-shaped `displayNameNoUser`. -/
def specLabel (first_name last_name : Option String) : String :=
  let survivors := ([first_name, last_name].filterMap (fun o => o)).map jsTrim
  let kept := survivors.filter (fun s => !(s == ""))
  if kept = [] then "unknown" else String.intercalate (" ") kept

/-- C3: for every identity without a username, the display label is obtained
by trimming each present name, discarding the ones that are empty after
trimming, joining the survivors first-then-last with a single space, with
literal fallback `unknown`; empty or whitespace-only names yield the label
`unknown` in all three dialects. -/
theorem c3_display_label :
    (∀ fn ln : Option String, displayNameNoUser fn ln = specLabel fn ln)
    ∧ (∀ (i : Option JSId) (fn ln : Option String),
        nameKept (trimName fn) = false → nameKept (trimName ln) = false →
        buildUserMention ⟨none, i, none, fn, ln, some ("HTML")⟩
          = htmlUrl ("unknown") (mentionLink none i)
        ∧ buildUserMention ⟨none, i, none, fn, ln, some ("Markdown")⟩
          = mdUrl ("unknown") (mentionLink none i)
        ∧ buildUserMention ⟨none, i, none, fn, ln, some ("MarkdownV2")⟩
          = mdv2Url ("unknown") (mentionLink none i)) := by
  constructor
  · intro fn ln
    cases fn with
    | none =>
      cases ln with
      | none => rfl
      | some b =>
        by_cases hb : jsTrim b = "" <;>
          simp [displayNameNoUser, specLabel, trimName, nameKept, hb]
    | some a =>
      cases ln with
      | none =>
        by_cases ha : jsTrim a = "" <;>
          simp [displayNameNoUser, specLabel, trimName, nameKept, ha]
      | some b =>
        by_cases ha : jsTrim a = "" <;> by_cases hb : jsTrim b = "" <;>
          simp [displayNameNoUser, specLabel, trimName, nameKept, ha, hb]
  · intro i fn ln h1 h2
    have hd : displayNameOf none fn ln = "unknown" := by
      simp [displayNameOf, strTruthy, displayNameNoUser, h1, h2]
    refine ⟨?_, ?_, ?_⟩
    · simp only [buildUserMention, renderMention, resolveId, resolveUsername, resolveFirst,
        resolveLast, Option.bind, jsCoalesce_none_right, jsCoalesce_none_left,
        Option.getD_some, hd]
      rw [if_neg (by decide : ¬ ("HTML" = "Markdown")),
        if_neg (by decide : ¬ ("HTML" = "MarkdownV2")),
        if_neg (by decide : ¬ (strTruthy none = true))]
      rw [show htmlEscape ("unknown") = "unknown" from by decide]
    · simp only [buildUserMention, renderMention, resolveId, resolveUsername, resolveFirst,
        resolveLast, Option.bind, jsCoalesce_none_right, jsCoalesce_none_left,
        Option.getD_some, hd]
      rw [if_pos trivial]
    · simp only [buildUserMention, renderMention, resolveId, resolveUsername, resolveFirst,
        resolveLast, Option.bind, jsCoalesce_none_right, jsCoalesce_none_left,
        Option.getD_some, hd]
      rw [if_pos trivial]
      rw [show mdv2Escape ("unknown") = "unknown" from by decide]
      rw [if_neg (by decide : ¬ ("MarkdownV2" = "Markdown"))]

/-- C3 witness: whitespace-only first name and empty last name with no
username yield the `unknown` label, evaluated concretely in HTML mode. -/
theorem c3_display_label_witness :
    buildUserMention ⟨none, some (.num 12345), none, some ("   "), some (""), some ("HTML")⟩
      = "<a href=\"tg://user?id=12345\">unknown</a>" := by
  rw [(c3_display_label.2 (some (.num 12345)) (some ("   ")) (some (""))
    (by decide) (by decide)).1]
  decide

lemma mdv2EscapeList_id (l : List Char) (h : ∀ c ∈ l, c ∉ mdv2Reserved) :
    mdv2EscapeList l = String.mk l := by
  induction l with
  | nil => rfl
  | cons c cs ih =>
    have hc : c ∉ mdv2Reserved := h c (List.mem_cons_self c cs)
    have hcs := ih (fun x hx => h x (List.mem_cons_of_mem c hx))
    show mdv2EscapeChar c ++ mdv2EscapeList cs = String.mk (c :: cs)
    simp only [mdv2EscapeChar]
    rw [if_neg hc, hcs]
    rfl

/-- C4: in MarkdownV2 dialect the label is escaped character by character:
each reserved character (underscore, asterisk, brackets, parentheses, tilde,
backtick, greater-than, hash, plus, minus, equals, pipe, braces, dot,
exclamation mark, backslash) is preceded by exactly one backslash, every
other character is unchanged, and a label without reserved characters is
emitted unchanged; this applies to username labels, so `@john_doe` becomes
`@john\_doe`. -/
theorem c4_mdv2_escaping :
    (∀ o : MentionArgs, o.parseMode = some ("MarkdownV2") →
      buildUserMention o
        = mdv2Url (mdv2Escape (displayNameOf (resolveUsername o) (resolveFirst o) (resolveLast o)))
            (mentionLink (resolveUsername o) (resolveId o)))
    ∧ (∀ c : Char, c ∈ mdv2Reserved →
        mdv2EscapeChar c = String.singleton '\\' ++ String.singleton c)
    ∧ (∀ c : Char, c ∉ mdv2Reserved → mdv2EscapeChar c = String.singleton c)
    ∧ (∀ s : String, (∀ c ∈ s.toList, c ∉ mdv2Reserved) → mdv2Escape s = s)
    ∧ buildUserMention ⟨none, some (.num 12345), some ("john_doe"), none, none, some ("MarkdownV2")⟩
        = "[@john\\_doe](https://t.me/john_doe)" := by
  refine ⟨?_, ?_, ?_, ?_, by decide⟩
  · intro o h
    simp only [buildUserMention, renderMention, h, Option.getD_some]
    rw [if_pos trivial]
    rw [if_neg (by decide : ¬ ("MarkdownV2" = "Markdown"))]
  · intro c hc
    simp only [mdv2EscapeChar]
    rw [if_pos hc]
  · intro c hc
    simp only [mdv2EscapeChar]
    rw [if_neg hc]
  · intro s h
    show mdv2EscapeList s.toList = s
    rw [mdv2EscapeList_id s.toList h]
    rfl

/-- C4 witness: the MarkdownV2 equation at the username identity
`john_doe` (evaluating to the escaped label) and the unchanged-label rule
at the reserved-character-free label `Alice`. -/
theorem c4_mdv2_escaping_witness :
    buildUserMention ⟨none, some (.num 12345), none, some ("Test*User"), none, some ("MarkdownV2")⟩
      = "[Test\\*User](tg://user?id=12345)"
    ∧ mdv2Escape ("Alice") = "Alice" := by
  constructor
  · rw [c4_mdv2_escaping.1
      ⟨none, some (.num 12345), none, some ("Test*User"), none, some ("MarkdownV2")⟩ rfl]
    decide
  · exact c4_mdv2_escaping.2.2.2.1 ("Alice") (by decide)

/-- C5 counterexample: with `first_name` equal to `A[Test]B` in legacy
Markdown, the emitted label is `A[TestB` — the `]` is removed — so the label
is not emitted byte-for-byte unchanged inside `[LABEL](LINK)`. -/
theorem c5_legacy_byte_for_byte_counterexample :
    buildUserMention ⟨none, some (.num 12345), none, some ("A[Test]B"), none, some ("Markdown")⟩
      = "[A[TestB](tg://user?id=12345)"
    ∧ ¬ (buildUserMention ⟨none, some (.num 12345), none, some ("A[Test]B"), none, some ("Markdown")⟩
      = "[A[Test]B](tg://user?id=12345)") := by decide

/-- C5 amended: in the LegacyMarkdown dialect the display label is emitted
inside `[LABEL](LINK)` with no escaping, except that every `]` character is
removed from the label; a label containing no `]` is emitted byte-for-byte
unchanged, including one with an unbalanced `[`. -/
theorem c5_legacy_label_amended :
    (∀ o : MentionArgs, o.parseMode = some ("Markdown") →
      buildUserMention o
        = "[" ++ removeCloseBracket (displayNameOf (resolveUsername o) (resolveFirst o) (resolveLast o))
            ++ "](" ++ mentionLink (resolveUsername o) (resolveId o) ++ ")")
    ∧ (∀ s : String, (∀ c ∈ s.toList, c ≠ ']') → removeCloseBracket s = s) := by
  constructor
  · intro o h
    simp only [buildUserMention, renderMention, h, Option.getD_some]
    rw [if_pos trivial]
    rfl
  · intro s h
    have hf : s.toList.filter (fun c => !(c = ']')) = s.toList :=
      List.filter_eq_self.mpr (fun a ha => by simp [h a ha])
    show String.mk (s.toList.filter (fun c => !(c = ']'))) = s
    rw [hf]
    rfl

/-- C5 amended witness: a bracket-free label passes through unchanged in
legacy Markdown, and the label-preservation rule applied to `A[Test B`. -/
theorem c5_legacy_label_amended_witness :
    buildUserMention ⟨none, some (.num 12345), none, some ("Foo"), some ("Bar"), some ("Markdown")⟩
      = "[Foo Bar](tg://user?id=12345)"
    ∧ removeCloseBracket ("A[Test B") = "A[Test B" := by
  constructor
  · rw [c5_legacy_label_amended.1
      ⟨none, some (.num 12345), none, some ("Foo"), some ("Bar"), some ("Markdown")⟩ rfl]
    decide
  · exact c5_legacy_label_amended.2 ("A[Test B") (by decide)

/-! ## Concrete migration scenarios -/

/-- A resolved chat with username `alice`, used as a fixed lookup result. -/
def chatAlice : TgUser := ⟨some (.num 1), some ("alice"), none, none⟩

/-- A lookup collaborator that always resolves to `chatAlice`. -/
def gcAlice : GetChat := fun _ => .ok chatAlice

/-- An editor that always fails with the Telegram content-unchanged reason. -/
def edUnchanged : EditMessage :=
  fun _ _ _ => .error ("Bad Request: message is not modified")

/-- An editor whose every edit succeeds. -/
def edOk : EditMessage := fun _ _ _ => .ok ()

/-- A stored item with a channel-post reference and no saved timestamp. -/
def itemWater : StoredItem := ⟨"Water", some 7, none, none, some ("old"), none⟩

/-- A second stored item with a channel-post reference. -/
def itemFood : StoredItem := ⟨"Food", some 8, none, none, some ("old"), none⟩

/-- A store with a single owner holding one eligible need. -/
def storeOne : List (String × UserData) := [("1", ⟨[itemWater], []⟩)]

/-- A store with a single owner holding two eligible needs. -/
def storeTwo : List (String × UserData) := [("1", ⟨[itemWater, itemFood], []⟩)]

/-- C8 counterexample: when the edit fails with the content-unchanged
reason, the item is NOT treated as success: the store is returned unchanged
(no snapshot, no timestamp) and the run reports no update. -/
theorem c8_content_unchanged_counterexample :
    migrateUserMentions gcAlice edUnchanged ("2026-02-03T00:00:00.000Z") storeOne
      = (storeOne, false) := by decide

/-- C8 amended: every edit failure — including one whose reason indicates
content unchanged — leaves the item unmigrated with no state mutation, is
not counted, and the migration continues with the remaining items. -/
theorem c8_edit_failure_amended :
    ∀ (gc : GetChat) (ed : EditMessage) (now uid : String) (isNeed : Bool)
      (item : StoredItem) (rest : List StoredItem) (chat : TgUser) (m : Nat) (reason : String),
      item.channelMessageId = some m →
      gc uid = .ok chat →
      ed m (migrationContent isNeed item.description (chatMention chat)) item.fileId.isSome
        = .error reason →
      migrateItem gc ed now uid isNeed item = (item, false)
      ∧ migrateItems gc ed now uid isNeed (item :: rest)
          = (item :: (migrateItems gc ed now uid isNeed rest).1,
             (migrateItems gc ed now uid isNeed rest).2) := by
  intro gc ed now uid isNeed item rest chat m reason h1 h2 h3
  have hi : migrateItem gc ed now uid isNeed item = (item, false) := by
    simp only [migrateItem, h1, h2, h3]
  refine ⟨hi, ?_⟩
  simp only [migrateItems, List.map_cons, List.any_cons, hi]
  simp

/-- C8 amended witness: the content-unchanged edit failure at `itemWater`
leaves the item untouched and uncounted. -/
theorem c8_edit_failure_amended_witness :
    migrateItem gcAlice edUnchanged ("T") ("1") true itemWater = (itemWater, false) :=
  (c8_edit_failure_amended gcAlice edUnchanged ("T") ("1") true itemWater [] chatAlice 7
    ("Bad Request: message is not modified") rfl rfl rfl).1

/-- C9 counterexample: the migration has no limit cutoff and returns no
count: with two eligible items and all edits succeeding it processes and
updates both, and its only summary value — the boolean update flag — is
identical to the one for a store with a single eligible item, so the result
cannot be the count of items updated. -/
theorem c9_limit_and_count_counterexample :
    (migrateUserMentions gcAlice edOk ("T") storeTwo).1
      = [("1", ⟨[⟨"Water", some 7, none, some ("T"), some ("alice"), none⟩,
                 ⟨"Food", some 8, none, some ("T"), some ("alice"), none⟩], []⟩)]
    ∧ (migrateUserMentions gcAlice edOk ("T") storeTwo).2
      = (migrateUserMentions gcAlice edOk ("T") storeOne).2 := by decide

/-- The per-item outcome of a fully successful migration run: every item
with a channel-post reference receives the fresh timestamp and the role
snapshot derived from the resolved chat; items without one are untouched. -/
def itemAllOk (chat : TgUser) (now : String) (isNeed : Bool) (item : StoredItem) : StoredItem :=
  match item.channelMessageId with
  | none => item
  | some _ =>
    if isNeed then
      { item with
          updatedAt := some now
          requestor := some (jsOrStr chat.username chat.first_name ("unknown")) }
    else
      { item with
          updatedAt := some now
          supplier := some (jsOrStr chat.username chat.first_name ("unknown")) }

lemma listAnyMap {α β : Type} (f : α → β) (p : β → Bool) (l : List α) :
    (l.map f).any p = l.any (fun a => p (f a)) := by
  induction l with
  | nil => rfl
  | cons a t ih => simp [ih]

lemma migrateItem_allOk (gc : GetChat) (ed : EditMessage) (chats : String → TgUser)
    (now uid : String) (isNeed : Bool)
    (hgc : gc uid = .ok (chats uid)) (hed : ∀ m s b, ed m s b = .ok ())
    (item : StoredItem) :
    migrateItem gc ed now uid isNeed item
      = (itemAllOk (chats uid) now isNeed item, item.channelMessageId.isSome) := by
  cases hmi : item.channelMessageId with
  | none => simp [migrateItem, itemAllOk, hmi]
  | some m =>
    simp only [migrateItem, itemAllOk, hmi, hgc, hed, Option.isSome_some]
    cases isNeed <;> rfl

lemma migrateItems_allOk (gc : GetChat) (ed : EditMessage) (chats : String → TgUser)
    (now uid : String) (isNeed : Bool)
    (hgc : gc uid = .ok (chats uid)) (hed : ∀ m s b, ed m s b = .ok ())
    (items : List StoredItem) :
    migrateItems gc ed now uid isNeed items
      = (items.map (itemAllOk (chats uid) now isNeed),
         items.any (fun it => it.channelMessageId.isSome)) := by
  have hf : migrateItem gc ed now uid isNeed
      = fun it => (itemAllOk (chats uid) now isNeed it, it.channelMessageId.isSome) :=
    funext (migrateItem_allOk gc ed chats now uid isNeed hgc hed)
  simp only [migrateItems, hf, List.map_map, listAnyMap]
  simp [Function.comp]

/-- C9 amended: `migrateUserMentions` takes no limit parameter and returns
no count: with all lookups and edits succeeding it processes every item
that has a channel-post reference (skipping only those without one), and
its sole summary value is the boolean saying whether any item was updated,
which gates the single final persist. -/
theorem c9_no_limit_amended :
    ∀ (gc : GetChat) (ed : EditMessage) (chats : String → TgUser) (now : String)
      (store : List (String × UserData)),
      (∀ uid, gc uid = .ok (chats uid)) →
      (∀ m s b, ed m s b = .ok ()) →
      migrateUserMentions gc ed now store
        = (store.map (fun e => (e.1,
             ⟨e.2.needs.map (itemAllOk (chats e.1) now true),
              e.2.resources.map (itemAllOk (chats e.1) now false)⟩)),
           store.any (fun e =>
             (e.2.needs ++ e.2.resources).any (fun it => it.channelMessageId.isSome))) := by
  intro gc ed chats now store hgc hed
  have hu : ∀ (uid : String) (u : UserData), migrateUser gc ed now uid u
      = (⟨u.needs.map (itemAllOk (chats uid) now true),
          u.resources.map (itemAllOk (chats uid) now false)⟩,
         u.needs.any (fun it => it.channelMessageId.isSome)
           || u.resources.any (fun it => it.channelMessageId.isSome)) := by
    intro uid u
    simp only [migrateUser, migrateItems_allOk gc ed chats now uid true (hgc uid) hed,
      migrateItems_allOk gc ed chats now uid false (hgc uid) hed]
  simp only [migrateUserMentions, List.map_map, listAnyMap, hu, List.any_append]
  simp [Function.comp]

/-- C9 amended witness: a fully successful run over `storeOne`, with the
constant lookup `chatAlice` and the always-succeeding editor. -/
theorem c9_no_limit_amended_witness :
    migrateUserMentions gcAlice edOk ("T") storeOne
      = (storeOne.map (fun e => (e.1,
           ⟨e.2.needs.map (itemAllOk ((fun _ => chatAlice) e.1) ("T") true),
            e.2.resources.map (itemAllOk ((fun _ => chatAlice) e.1) ("T") false)⟩)),
         storeOne.any (fun e =>
           (e.2.needs ++ e.2.resources).any (fun it => it.channelMessageId.isSome))) :=
  c9_no_limit_amended gcAlice edOk (fun _ => chatAlice) ("T") storeOne
    (fun _ => rfl) (fun _ _ _ => rfl)

end CorrelationCenter
